import Mathlib

/-!
Shallow embedding of the AGENT_AUTOMATION event-scout pipeline
(`src/models/event_models.py`, `src/agents/event_ranker.py`,
`src/agents/event_registrar.py`, `src/agents/event_finder.py`,
`src/agents/notifier.py`, `src/storage/supabase_client.py`) together with
proofs about its ranking, registration, persistence, discovery and
notification behaviour.

Modelling conventions:
* Python floats are modelled as rationals (`ℚ`); `round(x, 2)` is modelled
  as exact rational rounding to two decimal places.
* Timestamps are modelled as natural numbers (`datetime.now()` becomes an
  explicit `now : Nat` parameter; `timedelta(days = d)` adds `d * 86400`).
* External effects (the Groq scoring oracle, HTTP responses, notification
  channel sends, exceptions raised during registration synthesis, Python's
  per-process salted string hash) are modelled as explicit function
  parameters, so every behaviour of the surrounding code is quantified over.
* Python strings are compared through their character lists; `str.lower()`
  becomes `Char.toLower` applied pointwise and `in` on strings becomes
  `List.isInfixOf` on character lists.
-/

namespace AgentAutomation

/-- `models/event_models.py`: the `EventPlatform` string enum. -/
inductive EventPlatform where
  | peatix
  | eventbrite
  | connpass
  | meetup
  | doorkeeper
  | jetro
  | chamber
deriving DecidableEq, Repr, Inhabited

/-- `models/event_models.py`: the `Event` record. The `date` field holds the
timestamp as seconds (datetime values are opaque to the pipeline logic). -/
structure Event where
  title : String
  description : String
  date : Nat
  venue : String
  city : String
  source_url : String
  source_platform : EventPlatform
  price : String := "Unknown"
  registration_required : Bool := false
deriving DecidableEq, Repr, Inhabited

/-- `models/event_models.py`: the `RankedEvent` record. -/
structure RankedEvent where
  event : Event
  relevance_score : ℚ
  matched_keywords : List String := []
  confidence : ℚ
deriving DecidableEq, Repr, Inhabited

/-- `models/event_models.py`: the `RegistrationResult` record.
`confirmation_data` (a Python `Dict[str, Any]`) is modelled as an association
list of string keys to string-rendered values. -/
structure RegistrationResult where
  event : RankedEvent
  success : Bool
  confirmation_data : Option (List (String × String)) := none
  qr_code_url : Option String := none
  error_message : Option String := none
deriving DecidableEq, Repr, Inhabited

/-- `models/event_models.py`: the `DigestEvent` record. Its `date` field is
the display-formatted timestamp (calendar formatting by `strftime` is
external and modelled by `toString`). -/
structure DigestEvent where
  title : String
  date : String
  venue : String
  description : String
  source_link : String
  relevance_score : ℚ
  registration_status : String
deriving DecidableEq, Repr, Inhabited

/-- Pointwise `str.lower()` on the characters of a string. -/
def lowerChars (s : String) : List Char :=
  s.data.map Char.toLower

/-- `leadsWith needle hay` holds when `hay` starts with `needle`. -/
def leadsWith : List Char → List Char → Bool
  | [], _ => true
  | _ :: _, [] => false
  | a :: as, b :: bs => a == b && leadsWith as bs

/-- Python's `needle in haystack` on strings, over character lists. -/
def containsSub (needle : List Char) : List Char → Bool
  | [] => needle.isEmpty
  | hay@(_ :: rest) => leadsWith needle hay || containsSub needle rest

/-- `event_ranker.py` line 36: `self.relevance_keywords`. -/
def relevance_keywords : List String :=
  ["startup", "AI", "artificial intelligence", "HR tech", "expat",
   "business", "innovation", "hiring", "tech", "technology",
   "entrepreneur", "venture", "funding", "networking", "machine learning",
   "digital transformation", "partnership", "client", "investment"]

/-- `EventRankerAgent._find_keyword_matches`: keywords whose lowercased text
occurs as a substring of `title + " " + description` lowercased. -/
def find_keyword_matches (e : Event) : List String :=
  let text := lowerChars (e.title ++ " " ++ e.description)
  relevance_keywords.filter (fun kw => containsSub (lowerChars kw) text)

/-- `EventRankerAgent._get_semantic_score`: the Groq reply is external, so it
is modelled as `resp : Option ℚ`; `some s` is a reply that parsed as the
float `s` (then clamped into `[0,1]`), `none` is an unparseable reply or a
raised exception (both default to `0.5`). -/
def get_semantic_score (resp : Option ℚ) : ℚ :=
  match resp with
  | some s => max 0 (min 1 s)
  | none => 1/2

/-- Exact rounding of a rational to two decimal places, modelling Python's
`round(x, 2)` on floats. -/
def round2 (q : ℚ) : ℚ :=
  (⌊q * 100 + 1/2⌋ : ℚ) / 100

/-- `EventRankerAgent._calculate_relevance_score`, with the external oracle
reply supplied by `sem`: keyword score `min(1, 0.2 × matches)`, semantic
score from the oracle, location score 1.0 for a target city else 0.3, the
weighted sum `0.4/0.3/0.2` plus the `0.1` base, clamped into `[0, 1]` and
rounded to two decimals. -/
def calculate_relevance_score (sem : Event → Option ℚ) (e : Event) : RankedEvent :=
  { event := e
    relevance_score := round2 (max 0 (min 1
      (min 1 (((find_keyword_matches e).length : ℚ) * (2/10)) * (4/10)
        + get_semantic_score (sem e) * (3/10)
        + (if e.city ∈ (["Osaka", "Kobe", "Kyoto"] : List String) then 1 else 3/10) * (2/10)
        + 1/10)))
    matched_keywords := find_keyword_matches e
    confidence := get_semantic_score (sem e) }

/-- `EventRankerAgent.rank_events`: score each event, keep scores `≥ 0.6`,
sort by score, highest first (Python's stable sort with `reverse=True`). -/
def rank_events (sem : Event → Option ℚ) (events : List Event) : List RankedEvent :=
  ((events.map (calculate_relevance_score sem)).filter
      (fun r => decide ((6/10 : ℚ) ≤ r.relevance_score))).mergeSort
    (fun a b => decide (b.relevance_score ≤ a.relevance_score))

/-- `event_registrar.py` line 67: the free-price indicator substrings
checked against the lowercased price string. -/
def free_indicators : List String :=
  ["free", "無料", "0", "zero", "no charge"]

/-- `EventRegistrarAgent._should_register`: score `≥ 0.8`, price contains a
free indicator, and registration is required. -/
def should_register (re : RankedEvent) : Bool :=
  if re.relevance_score < 8/10 then
    false
  else if ¬ free_indicators.any (fun ind => containsSub ind.data (lowerChars re.event.price)) then
    false
  else if ¬ re.event.registration_required then
    false
  else
    true

/-- `EventRegistrarAgent._register_connpass`, success branch. `strHash`
models Python's per-process salted `hash` on strings. -/
def register_connpass (strHash : String → Int) (re : RankedEvent) : RegistrationResult :=
  { event := re
    success := true
    confirmation_data := some
      [("platform", "connpass"),
       ("event_id", "CONNPASS_" ++ toString (strHash re.event.source_url)),
       ("registration_date", "2024-01-15"),
       ("status", "confirmed"),
       ("ticket_type", "一般")]
    qr_code_url := some
      ("https://api.qrserver.com/v1/create-qr-code/?size=200x200&data=" ++ re.event.source_url)
    error_message := none }

/-- `EventRegistrarAgent._register_peatix`, success branch. -/
def register_peatix (strHash : String → Int) (re : RankedEvent) : RegistrationResult :=
  { event := re
    success := true
    confirmation_data := some
      [("platform", "peatix"),
       ("order_id", "PEATIX_" ++ toString (strHash re.event.source_url)),
       ("ticket_type", "Free Admission"),
       ("status", "confirmed")]
    qr_code_url := some
      ("https://api.qrserver.com/v1/create-qr-code/?size=200x200&data=PEATIX_"
        ++ toString (strHash re.event.source_url))
    error_message := none }

/-- `EventRegistrarAgent._register_meetup`, success branch. -/
def register_meetup (strHash : String → Int) (re : RankedEvent) : RegistrationResult :=
  { event := re
    success := true
    confirmation_data := some
      [("platform", "meetup"),
       ("rsvp_id", "MEETUP_" ++ toString (strHash re.event.source_url)),
       ("status", "yes"),
       ("guests", "0")]
    qr_code_url := none
    error_message := none }

/-- The string value carried by each `EventPlatform` member (the Pydantic
models use `use_enum_values`, so the field holds this string). -/
def platformStr : EventPlatform → String
  | .peatix => "peatix"
  | .eventbrite => "eventbrite"
  | .connpass => "connpass"
  | .meetup => "meetup"
  | .doorkeeper => "doorkeeper"
  | .jetro => "jetro"
  | .chamber => "chamber"

/-- `EventRegistrarAgent._register_generic`. -/
def register_generic (re : RankedEvent) : RegistrationResult :=
  { event := re
    success := true
    confirmation_data := some
      [("platform", platformStr re.event.source_platform),
       ("status", "auto_registered"),
       ("registration_date", "2024-01-15"),
       ("note", "Automatic registration by Raptor Event Scout")]
    qr_code_url := none
    error_message := none }

/-- `EventRegistrarAgent._register_single_event`: dispatch on the platform
tag; `ok re = false` models an unexpected exception raised during the
registration synthesis for `re`, caught by the handler that produces a
failed result carrying an error message. -/
def register_single_event (strHash : String → Int) (ok : RankedEvent → Bool)
    (re : RankedEvent) : RegistrationResult :=
  if ok re then
    match re.event.source_platform with
    | .connpass => register_connpass strHash re
    | .peatix => register_peatix strHash re
    | .meetup => register_meetup strHash re
    | _ => register_generic re
  else
    { event := re
      success := false
      confirmation_data := none
      qr_code_url := none
      error_message := some "Registration error" }

/-- The loop body of `EventRegistrarAgent.register_for_events`: the counter
of successful registrations is checked against the cap of 3 at the top of
each iteration, ineligible events are skipped without a result, and only a
successful result increments the counter. -/
def register_loop (strHash : String → Int) (ok : RankedEvent → Bool) :
    List RankedEvent → Nat → List RegistrationResult
  | [], _ => []
  | re :: rest, registered_count =>
    if registered_count ≥ 3 then
      []
    else if should_register re then
      let result := register_single_event strHash ok re
      result :: register_loop strHash ok rest
        (if result.success then registered_count + 1 else registered_count)
    else
      register_loop strHash ok rest registered_count

/-- `EventRegistrarAgent.register_for_events`. -/
def register_for_events (strHash : String → Int) (ok : RankedEvent → Bool)
    (ranked_events : List RankedEvent) : List RegistrationResult :=
  register_loop strHash ok ranked_events 0

/-- `storage/supabase_client.py`: a persisted events row, keyed by the
store-generated `id`; only the columns the dedup logic reads are tracked
next to the full inserted payload. -/
structure EventRow where
  id : Nat
  title : String
  description : String
  event_date : Nat
  venue : String
  city : String
  source_url : String
  source_platform : EventPlatform
  price : String
deriving DecidableEq, Repr, Inhabited

/-- The hosted row store, as the opaque keyed store of the persistence
contract: a sequence of rows plus the next generated key. -/
structure Store where
  rows : List EventRow
  next_id : Nat
deriving DecidableEq, Repr, Inhabited

/-- Point lookup by `source_url` (`.eq("source_url", ...)`, first row). -/
def lookup_by_url (s : Store) (url : String) : Option EventRow :=
  s.rows.find? (fun r => r.source_url == url)

/-- `DatabaseManager.save_events`, one event: if a row with the same
`source_url` exists, return its id without writing; otherwise insert a new
row and return the generated id. -/
def save_event (s : Store) (e : Event) : Nat × Store :=
  match lookup_by_url s e.source_url with
  | some row => (row.id, s)
  | none =>
    let row : EventRow :=
      { id := s.next_id
        title := e.title
        description := e.description
        event_date := e.date
        venue := e.venue
        city := e.city
        source_url := e.source_url
        source_platform := e.source_platform
        price := e.price }
    (s.next_id, { rows := s.rows ++ [row], next_id := s.next_id + 1 })

/-- `DatabaseManager.save_events` over a list, threading the store. -/
def save_events (s : Store) : List Event → List Nat × Store
  | [] => ([], s)
  | e :: rest =>
    let ks := save_event s e
    let rec_result := save_events ks.2 rest
    (ks.1 :: rec_result.1, rec_result.2)

/-- `NotifierAgent.send_weekly_digest` lines 43-53: one `DigestEvent` from a
ranked event; the status label is chosen purely by the score threshold. -/
def toDigestEvent (re : RankedEvent) : DigestEvent :=
  { title := re.event.title
    date := toString re.event.date
    venue := re.event.venue
    description :=
      if re.event.description.length > 200 then
        (re.event.description.take 200) ++ "..."
      else
        re.event.description
    source_link := re.event.source_url
    relevance_score := re.relevance_score
    registration_status :=
      if re.relevance_score ≥ 8/10 then "✅ Auto-registered" else "⏸️ Manual review" }

/-- The digest list built by `send_weekly_digest`: the first 10 ranked
events, converted. -/
def digest_events_of (ranked_events : List RankedEvent) : List DigestEvent :=
  (ranked_events.take 10).map toDigestEvent

/-- `NotifierAgent.send_weekly_digest`: each success flag starts `True` and
is overwritten by the channel's send result only when that channel is
configured; the returned flag is their disjunction. The channel sends are
external, modelled by `sendTelegram` / `sendEmail` applied to the digest. -/
def send_weekly_digest (ranked_events : List RankedEvent)
    (telegramConfigured emailConfigured : Bool)
    (sendTelegram sendEmail : List DigestEvent → Bool) : Bool :=
  let digest_events := digest_events_of ranked_events
  let telegram_success := if telegramConfigured then sendTelegram digest_events else true
  let email_success := if emailConfigured then sendEmail digest_events else true
  telegram_success || email_success

/-- The claim's reading of digest success, following the spec's words:
some channel that is configured succeeded. -/
def some_configured_channel_succeeded (ranked_events : List RankedEvent)
    (telegramConfigured emailConfigured : Bool)
    (sendTelegram sendEmail : List DigestEvent → Bool) : Bool :=
  let digest_events := digest_events_of ranked_events
  (telegramConfigured && sendTelegram digest_events)
    || (emailConfigured && sendEmail digest_events)

/-- `event_finder.py`: one raw event object of a parsed Connpass payload.
`started_at = none` is an absent field, `some none` a present but
unparseable ISO string (ISO-8601 parsing is external), `some (some t)` a
field parsed to timestamp `t`. -/
structure RawConnpassEvent where
  title : Option String := none
  description : Option String := none
  started_at : Option (Option Nat) := none
  place : Option String := none
  address : Option String := none
  event_url : Option String := none
  fee : Option String := none
deriving DecidableEq, Repr, Inhabited

/-- `EventFinderAgent.__init__`: the target cities. -/
def finder_cities : List String :=
  ["Osaka", "Kobe", "Kyoto"]

/-- `EventFinderAgent.__init__`: the searched platforms. -/
def finder_platforms : List EventPlatform :=
  [.connpass, .peatix, .meetup]

/-- `EventFinderAgent._convert_city_name`: the fixed lookup table. -/
def city_mapping : List (String × List String) :=
  [("Osaka", ["大阪", "ōsaka", "osaka"]),
   ("Kobe", ["神戸", "kōbe", "kobe"]),
   ("Kyoto", ["京都", "kyōto", "kyoto"])]

/-- `EventFinderAgent._convert_city_name`: first mapping entry one of whose
names occurs in the lowercased address wins; otherwise the English city. -/
def convert_city_name (english_city japanese_address : String) : String :=
  let addr := lowerChars japanese_address
  match city_mapping.find? (fun p => p.2.any (fun name => containsSub name.data addr)) with
  | some p => p.1
  | none => english_city

/-- `EventFinderAgent._get_connpass_mock_events`: the fallback events for a
city when the Connpass API is unavailable. `now` is the current timestamp in
seconds (the mock date is 10 days ahead; the source url embeds the
timestamp). -/
def get_connpass_mock_events (now : Nat) (city : String) : List Event :=
  [{ title := "Tech Community Meetup " ++ city
     description := "Join the local tech community in " ++ city
       ++ " for networking and knowledge sharing. Great opportunity to connect with developers and startups."
     date := now + 10 * 86400
     venue := city ++ " Community Center"
     city := city
     source_url := "https://connpass.com/event/" ++ String.mk (lowerChars city)
       ++ "-tech-" ++ toString now
     source_platform := .connpass
     price := "Free"
     registration_required := true }]

/-- Parsing of one raw Connpass event (`event_finder.py` lines 103-126):
defaulted fields, description capped at 500 characters, city canonicalized
from the address, missing date falling back to `now` and an unparseable one
to `now` plus 7 days, and the fee coerced to `"Free"` or a yen-prefixed
string. -/
def parse_connpass_event (now : Nat) (city : String) (raw : RawConnpassEvent) : Event :=
  let jp_city := convert_city_name city (raw.address.getD "")
  let event_date :=
    match raw.started_at with
    | none => now
    | some none => now + 7 * 86400
    | some (some t) => t
  { title := raw.title.getD "No Title"
    description := (raw.description.getD "No Description").take 500
    date := event_date
    venue := raw.place.getD "Unknown Venue"
    city := jp_city
    source_url := raw.event_url.getD ""
    source_platform := .connpass
    price := if raw.fee.getD "0" == "0" then "Free" else "¥" ++ raw.fee.getD "0"
    registration_required := true }

/-- `EventFinderAgent._search_connpass`: the HTTP exchange is external, so
the response is an oracle `resp` keyed by the queried city; `none` is any
failure of the query (network error, 403, non-2xx raising, malformed
payload), which falls back to the mock events, and `some evs` a payload
whose event list parsed; at most 5 events per city are kept. -/
def search_connpass (now : Nat) (resp : String → Option (List RawConnpassEvent))
    (city : String) : List Event :=
  match resp city with
  | none => get_connpass_mock_events now city
  | some evs => (evs.take 5).map (parse_connpass_event now city)

/-- `EventFinderAgent._search_peatix`: a deterministic mock event per city
(7 days ahead). -/
def search_peatix (now : Nat) (city : String) : List Event :=
  [{ title := "AI & Startup Networking in " ++ city
     description := "Join us for an exciting networking event with AI startups and investors in "
       ++ city ++ ". Great opportunity for partnerships and business development."
     date := now + 7 * 86400
     venue := city ++ " Business Center"
     city := city
     source_url := "https://peatix.com/event/" ++ city ++ "-ai-" ++ toString now
     source_platform := .peatix
     price := "Free"
     registration_required := true }]

/-- `EventFinderAgent._search_meetup`: a deterministic mock event per city
(14 days ahead). -/
def search_meetup (now : Nat) (city : String) : List Event :=
  [{ title := "Tech Innovation Meetup " ++ city
     description := "Monthly tech meetup featuring the latest innovations in AI, HR tech, and business development in "
       ++ city ++ "."
     date := now + 14 * 86400
     venue := city ++ " Tech Hub"
     city := city
     source_url := "https://meetup.com/tech-" ++ city ++ "-" ++ toString now
     source_platform := .meetup
     price := "Free"
     registration_required := true }]

/-- `EventFinderAgent._search_platform`: dispatch on the platform tag; an
unknown platform yields no events. -/
def search_platform (now : Nat) (resp : String → Option (List RawConnpassEvent))
    (platform : EventPlatform) (city : String) : List Event :=
  match platform with
  | .connpass => search_connpass now resp city
  | .peatix => search_peatix now city
  | .meetup => search_meetup now city
  | _ => []

/-- The (city, platform) task order of `discover_events`: cities outermost,
platforms innermost, matching the task construction loop. -/
def finder_pairs : List (String × EventPlatform) :=
  finder_cities.flatMap (fun c => finder_platforms.map (fun p => (c, p)))

/-- `EventFinderAgent.discover_events`: all pair queries are issued and the
per-pair results concatenated in task order (`asyncio.gather` preserves task
order and per-pair exceptions are already absorbed inside
`_search_platform`). -/
def discover_events (now : Nat)
    (resp : String → Option (List RawConnpassEvent)) : List Event :=
  (finder_pairs.map (fun cp => search_platform now resp cp.2 cp.1)).flatten

/-! ### Specification-side definitions used by the refinement claims -/

/-- Spec-side, §4.2: clamping into the unit interval. -/
def clamp01 (q : ℚ) : ℚ :=
  max 0 (min 1 q)

/-- Spec-side, claim C4: the number of fixed keywords occurring
case-insensitively as substrings of `title + " " + description`. -/
def spec_keyword_count (e : Event) : Nat :=
  relevance_keywords.countP
    (fun kw => containsSub (lowerChars kw) (lowerChars (e.title ++ " " ++ e.description)))

/-- Spec-side, claim C4: 1.0 for a target city, 0.3 otherwise. -/
def spec_location_score (e : Event) : ℚ :=
  if e.city ∈ (["Osaka", "Kobe", "Kyoto"] : List String) then 1 else 3/10

/-- Spec-side, claim C4: the full scoring formula
`clamp(0,1, 0.4 × min(1.0, 0.2 × k) + 0.3 × s + 0.2 × loc + 0.1)` rounded to
two decimal places. -/
def spec_relevance_formula (s : ℚ) (e : Event) : ℚ :=
  round2 (clamp01
    ((4/10) * min 1 ((2/10) * (spec_keyword_count e : ℚ))
      + (3/10) * s + (2/10) * spec_location_score e + 1/10))

/-! ### Helper lemmas -/

/-- Rounding to two decimals preserves nonnegativity. -/
theorem round2_nonneg {q : ℚ} (h : 0 ≤ q) : 0 ≤ round2 q := by
  unfold round2
  apply div_nonneg _ (by norm_num)
  have : (0 : ℤ) ≤ ⌊q * 100 + 1/2⌋ := by
    rw [Int.floor_nonneg]
    nlinarith
  exact_mod_cast this

/-- Rounding to two decimals maps `[0, 1]` into `[0, 1]` from above. -/
theorem round2_le_one {q : ℚ} (h : q ≤ 1) : round2 q ≤ 1 := by
  unfold round2
  rw [div_le_one (by norm_num)]
  have : ⌊q * 100 + 1/2⌋ ≤ 100 := by
    rw [Int.floor_le_iff]
    push_cast
    nlinarith
  exact_mod_cast this

/-- The score assigned by `_calculate_relevance_score` lies in `[0, 1]`. -/
theorem calculate_relevance_score_mem_unit (sem : Event → Option ℚ) (e : Event) :
    0 ≤ (calculate_relevance_score sem e).relevance_score ∧
      (calculate_relevance_score sem e).relevance_score ≤ 1 := by
  unfold calculate_relevance_score
  refine ⟨round2_nonneg (le_max_left _ _), round2_le_one (max_le (by norm_num) (min_le_left _ _))⟩

/-- Every result of the registration loop is the synthesis result of some
ranked event. -/
theorem mem_register_loop {strHash : String → Int} {ok : RankedEvent → Bool}
    {r : RegistrationResult} :
    ∀ {l : List RankedEvent} {count : Nat}, r ∈ register_loop strHash ok l count →
      ∃ re, r = register_single_event strHash ok re
  | [], _, h => by simp [register_loop] at h
  | re :: rest, count, h => by
    unfold register_loop at h
    split at h
    · simp at h
    · split at h
      · rcases List.mem_cons.mp h with h' | h'
        · exact ⟨re, h'⟩
        · exact mem_register_loop h'
      · exact mem_register_loop h

/-- The registration loop produces at most `3 - count` successful results
when started with `count` successes already recorded. -/
theorem register_loop_countP (strHash : String → Int) (ok : RankedEvent → Bool) :
    ∀ (l : List RankedEvent) (count : Nat),
      (register_loop strHash ok l count).countP (fun r => r.success) ≤ 3 - count
  | [], count => by simp [register_loop]
  | re :: rest, count => by
    unfold register_loop
    split
    · simp
    · rename_i hcount
      split
      · rw [List.countP_cons]
        by_cases hs : (register_single_event strHash ok re).success = true
        · have ih := register_loop_countP strHash ok rest (count + 1)
          simp only [hs, if_true]
          simp only [decide_eq_true_eq] at *
          omega
        · have ih := register_loop_countP strHash ok rest count
          simp only [hs, if_false]
          simp only [Bool.not_eq_true] at hs
          simp only [hs] at *
          simp at *
          omega
      · exact register_loop_countP strHash ok rest count

/-- Eligibility holds when all three checks of `_should_register` pass. -/
theorem should_register_of (re : RankedEvent)
    (h1 : ¬ (re.relevance_score < 8/10))
    (h2 : free_indicators.any
      (fun ind => containsSub ind.data (lowerChars re.event.price)) = true)
    (h3 : re.event.registration_required = true) :
    should_register re = true := by
  unfold should_register
  rw [if_neg h1, h2, h3]
  norm_num

/-! ### Claim theorems -/

/-- A ranked event priced `"¥500"` with maximal score, used to exhibit the
free-price check matching the digit zero of a paid price. -/
def yen500_ranked : RankedEvent :=
  { event :=
      { title := "AI Seminar"
        description := "business networking"
        date := 0
        venue := "Grand Front"
        city := "Osaka"
        source_url := "https://connpass.com/event/99999"
        source_platform := .connpass
        price := "¥500"
        registration_required := true }
    relevance_score := 1
    matched_keywords := []
    confidence := 1 }

/-- C1: an event priced `"¥500"` with `relevance_score = 1.0` and
`registration_required = true` is accepted by the eligibility predicate
`_should_register`, because the free-indicator check `'0' in price_lower`
matches the zeros of `"¥500"`; the code auto-registers a paid event, against
its own "Check if event is free" intent and the spec. -/
theorem should_register_yen500_eval :
    should_register yen500_ranked = true := by
  have hfree : free_indicators.any
      (fun ind => containsSub ind.data (lowerChars yen500_ranked.event.price)) = true := by
    decide
  unfold should_register
  rw [hfree]
  norm_num [yen500_ranked]

/-- C2: per invocation, `register_for_events` returns at most 3 results with
`success = true`, for every exception oracle and input list; moreover once
the counter has reached the cap the loop produces nothing further. -/
theorem register_for_events_success_cap (strHash : String → Int)
    (ok : RankedEvent → Bool) (ranked_events : List RankedEvent) :
    (register_for_events strHash ok ranked_events).countP (fun r => r.success) ≤ 3 ∧
      register_loop strHash ok ranked_events 3 = [] := by
  constructor
  · simpa using register_loop_countP strHash ok ranked_events 0
  · cases ranked_events <;> simp [register_loop]

/-- C9: the `≥ 0.8` relevance threshold of `_should_register` is inclusive:
a ranked event with score exactly `0.8`, a price containing a free
indicator, and `registration_required = true` is eligible, while any ranked
event with score `0.79` is rejected. -/
theorem should_register_threshold_inclusive :
    (∀ re : RankedEvent, re.relevance_score = 8/10 →
      free_indicators.any (fun ind => containsSub ind.data (lowerChars re.event.price)) = true →
      re.event.registration_required = true →
      should_register re = true) ∧
    (∀ re : RankedEvent, re.relevance_score = 79/100 →
      should_register re = false) := by
  constructor
  · intro re h1 h2 h3
    exact should_register_of re (by rw [h1]; norm_num) h2 h3
  · intro re h1
    unfold should_register
    rw [h1]
    norm_num

/-- A concrete free event requiring registration, shared by the witnesses. -/
def demo_free_event : Event :=
  { title := "AI Startup Night"
    description := "tech networking"
    date := 0
    venue := "Hub"
    city := "Osaka"
    source_url := "https://connpass.com/event/1"
    source_platform := .connpass
    price := "Free"
    registration_required := true }

/-- The demo event ranked at exactly the `0.8` threshold. -/
def demo_ranked_080 : RankedEvent :=
  { event := demo_free_event
    relevance_score := 8/10
    matched_keywords := []
    confidence := 1/2 }

/-- The demo event ranked at `0.79`, just under the threshold. -/
def demo_ranked_079 : RankedEvent :=
  { event := demo_free_event
    relevance_score := 79/100
    matched_keywords := []
    confidence := 1/2 }

/-- The demo event ranked at `0.9`. -/
def demo_ranked_090 : RankedEvent :=
  { event := demo_free_event
    relevance_score := 9/10
    matched_keywords := []
    confidence := 1/2 }

/-- Witness for C9 at concrete eligible and ineligible events. -/
theorem should_register_threshold_inclusive_witness :
    should_register demo_ranked_080 = true ∧
      should_register demo_ranked_079 = false :=
  ⟨should_register_threshold_inclusive.1 demo_ranked_080 rfl (by decide) rfl,
   should_register_threshold_inclusive.2 demo_ranked_079 rfl⟩

/-- C3: every ranked event returned by `rank_events` has a relevance score
in `[0, 1]` that clears the `0.6` inclusion threshold, and the returned list
is sorted non-increasingly by score. -/
theorem rank_events_scores_bounded_sorted (sem : Event → Option ℚ) (events : List Event) :
    (∀ r ∈ rank_events sem events,
        0 ≤ r.relevance_score ∧ r.relevance_score ≤ 1 ∧ (6/10 : ℚ) ≤ r.relevance_score) ∧
      (rank_events sem events).Pairwise
        (fun a b => b.relevance_score ≤ a.relevance_score) := by
  constructor
  · intro r hr
    unfold rank_events at hr
    rw [List.mem_mergeSort, List.mem_filter] at hr
    obtain ⟨hmap, hp⟩ := hr
    obtain ⟨e, _, rfl⟩ := List.mem_map.mp hmap
    have hb := calculate_relevance_score_mem_unit sem e
    exact ⟨hb.1, hb.2, of_decide_eq_true hp⟩
  · unfold rank_events
    have hs := @List.sorted_mergeSort RankedEvent
      (fun a b => decide (b.relevance_score ≤ a.relevance_score))
      (fun a b c hab hbc => by
        simp only [decide_eq_true_eq] at *
        exact le_trans hbc hab)
      (fun a b => by
        simp only [Bool.or_eq_true, decide_eq_true_eq]
        exact le_total b.relevance_score a.relevance_score)
      ((events.map (calculate_relevance_score sem)).filter
        (fun r => decide ((6/10 : ℚ) ≤ r.relevance_score)))
    exact hs.imp (fun h => of_decide_eq_true h)

/-- A concrete event matching no keyword, used by the ranking witness. -/
def demo_plain_event : Event :=
  { title := "Flower Show"
    description := "A show."
    date := 0
    venue := "Hall"
    city := "Osaka"
    source_url := "https://peatix.com/event/2"
    source_platform := .peatix
    price := "Free"
    registration_required := true }

/-- A semantic oracle that always replies `1.0`. -/
def demo_sem : Event → Option ℚ :=
  fun _ => some 1

/-- The ranked event `rank_events demo_sem [demo_plain_event]` produces:
keyword score 0, semantic 1, location 1, so `0.4×0 + 0.3×1 + 0.2×1 + 0.1 = 0.6`. -/
def demo_ranked_out : RankedEvent :=
  { event := demo_plain_event
    relevance_score := 3/5
    matched_keywords := []
    confidence := 1 }

/-- Scoring the keyword-free demo event yields exactly `demo_ranked_out`. -/
theorem calculate_demo_plain :
    calculate_relevance_score demo_sem demo_plain_event = demo_ranked_out := by
  have hkw : find_keyword_matches demo_plain_event = [] := by decide
  have hcity : demo_plain_event.city ∈ (["Osaka", "Kobe", "Kyoto"] : List String) := by decide
  have harg : max 0 (min 1
      (min 1 ((((([] : List String)).length : ℚ)) * (2/10)) * (4/10)
        + get_semantic_score (demo_sem demo_plain_event) * (3/10)
        + (if demo_plain_event.city ∈ (["Osaka", "Kobe", "Kyoto"] : List String) then 1 else 3/10) * (2/10)
        + 1/10)) = 3/5 := by
    rw [if_pos hcity]
    norm_num [demo_sem, get_semantic_score, min_def, max_def]
  have hround : round2 (3/5 : ℚ) = 3/5 := by
    unfold round2
    have h60 : ⌊(3/5 : ℚ) * 100 + 1/2⌋ = 60 := by
      rw [Int.floor_eq_iff]
      norm_num
    rw [h60]
    norm_num
  have hconf : get_semantic_score (demo_sem demo_plain_event) = 1 := by
    norm_num [demo_sem, get_semantic_score, min_def, max_def]
  unfold calculate_relevance_score demo_ranked_out
  rw [hkw, harg, hround, hconf]

/-- The demo ranking run evaluates to the single ranked event. -/
theorem rank_events_demo : rank_events demo_sem [demo_plain_event] = [demo_ranked_out] := by
  have hp : decide ((6/10 : ℚ) ≤ demo_ranked_out.relevance_score) = true := by
    rw [decide_eq_true_eq]
    norm_num [demo_ranked_out]
  unfold rank_events
  rw [List.map_singleton, calculate_demo_plain, List.filter_singleton, hp]
  simp

/-- Witness for C3 on the concrete ranking run. -/
theorem rank_events_scores_bounded_sorted_witness :
    0 ≤ demo_ranked_out.relevance_score ∧ demo_ranked_out.relevance_score ≤ 1 ∧
      (6/10 : ℚ) ≤ demo_ranked_out.relevance_score :=
  (rank_events_scores_bounded_sorted demo_sem [demo_plain_event]).1 demo_ranked_out
    (by rw [rank_events_demo]; exact List.mem_singleton.mpr rfl)

/-- C4: for an oracle reply `s ∈ [0, 1]`, the computed relevance score is
exactly the spec formula
`clamp(0,1, 0.4 × min(1, 0.2 × k) + 0.3 × s + 0.2 × loc + 0.1)` rounded to
two decimal places. -/
theorem calculate_relevance_score_eq_formula (sem : Event → Option ℚ) (e : Event) (s : ℚ)
    (hs : sem e = some s) (h0 : 0 ≤ s) (h1 : s ≤ 1) :
    (calculate_relevance_score sem e).relevance_score = spec_relevance_formula s e := by
  have hsome : get_semantic_score (some s) = max 0 (min 1 s) := rfl
  have hsem : max 0 (min 1 s) = s := by rw [min_eq_right h1, max_eq_right h0]
  unfold spec_relevance_formula clamp01 spec_location_score
  show round2 (max 0 (min 1
      (min 1 (((find_keyword_matches e).length : ℚ) * (2/10)) * (4/10)
        + get_semantic_score (sem e) * (3/10)
        + (if e.city ∈ (["Osaka", "Kobe", "Kyoto"] : List String) then 1 else 3/10) * (2/10)
        + 1/10))) = _
  rw [hs, hsome, hsem]
  refine congrArg (fun x => round2 (max 0 (min 1 x))) ?_
  have hk : ((find_keyword_matches e).length : ℚ) = (spec_keyword_count e : ℚ) := by
    unfold find_keyword_matches spec_keyword_count
    rw [List.countP_eq_length_filter]
  rw [hk, mul_comm ((spec_keyword_count e : ℚ)) ((2 : ℚ)/10)]
  ring

/-- A semantic oracle that always replies `0.5`. -/
def demo_sem_half : Event → Option ℚ :=
  fun _ => some (1/2)

/-- Witness for C4 at a concrete event and oracle reply `0.5`. -/
theorem calculate_relevance_score_eq_formula_witness :
    (calculate_relevance_score demo_sem_half demo_plain_event).relevance_score =
      spec_relevance_formula (1/2) demo_plain_event :=
  calculate_relevance_score_eq_formula demo_sem_half demo_plain_event (1/2) rfl
    (by norm_num) (by norm_num)

/-- C8: every `RegistrationResult` produced by `register_for_events`
satisfies exactly one of: `success = true` with confirmation data present,
or `success = false` with an error message present. -/
theorem registration_result_invariant (strHash : String → Int)
    (ok : RankedEvent → Bool) (ranked_events : List RankedEvent) :
    ∀ r ∈ register_for_events strHash ok ranked_events,
      Xor' (r.success = true ∧ r.confirmation_data.isSome = true)
        (r.success = false ∧ r.error_message.isSome = true) := by
  intro r hr
  obtain ⟨re, rfl⟩ := mem_register_loop hr
  unfold register_single_event
  split
  · cases re.event.source_platform <;>
      simp [Xor', register_connpass, register_peatix, register_meetup, register_generic]
  · simp [Xor']

/-- Witness for C8 at a concrete run producing one successful result. -/
theorem registration_result_invariant_witness :
    Xor'
      ((register_single_event (fun _ => 0) (fun _ => true) demo_ranked_090).success = true ∧
        (register_single_event (fun _ => 0) (fun _ => true)
          demo_ranked_090).confirmation_data.isSome = true)
      ((register_single_event (fun _ => 0) (fun _ => true) demo_ranked_090).success = false ∧
        (register_single_event (fun _ => 0) (fun _ => true)
          demo_ranked_090).error_message.isSome = true) := by
  have hsr : should_register demo_ranked_090 = true :=
    should_register_of demo_ranked_090 (by norm_num [demo_ranked_090])
      (by decide) rfl
  have hrun : register_for_events (fun _ => 0) (fun _ => true) [demo_ranked_090] =
      [register_single_event (fun _ => 0) (fun _ => true) demo_ranked_090] := by
    simp [register_for_events, register_loop, hsr]
  exact registration_result_invariant (fun _ => 0) (fun _ => true) [demo_ranked_090]
    _ (hrun ▸ List.mem_singleton.mpr rfl)

/-- A store row found by URL stays found (with the same row) across any
single save: a hit leaves the store unchanged, and a miss only appends. -/
theorem save_event_preserves_lookup (s : Store) (e : Event) (url : String) (row : EventRow)
    (h : lookup_by_url s url = some row) :
    lookup_by_url (save_event s e).2 url = some row := by
  unfold save_event
  cases h2 : lookup_by_url s e.source_url with
  | some r => simpa using h
  | none =>
    unfold lookup_by_url at h ⊢
    rw [List.find?_append, h]
    rfl

/-- A store row found by URL stays found across any sequence of saves. -/
theorem save_events_preserves_lookup (l : List Event) :
    ∀ (s : Store) (url : String) (row : EventRow), lookup_by_url s url = some row →
      lookup_by_url (save_events s l).2 url = some row := by
  induction l with
  | nil =>
    intro s url row h
    simpa [save_events] using h
  | cons e rest ih =>
    intro s url row h
    simp only [save_events]
    exact ih _ _ _ (save_event_preserves_lookup s e url row h)

/-- After saving an event, a lookup by its URL finds a row carrying the key
that the save returned. -/
theorem save_event_lookup_self (s : Store) (e : Event) :
    ∃ row, lookup_by_url (save_event s e).2 e.source_url = some row ∧
      row.id = (save_event s e).1 := by
  unfold save_event
  cases h : lookup_by_url s e.source_url with
  | some row => exact ⟨row, by simpa using h, rfl⟩
  | none =>
    refine ⟨{ id := s.next_id, title := e.title, description := e.description,
              event_date := e.date, venue := e.venue, city := e.city,
              source_url := e.source_url, source_platform := e.source_platform,
              price := e.price }, ?_, rfl⟩
    unfold lookup_by_url at h ⊢
    rw [List.find?_append, h]
    simp

/-- Saving an event whose URL is already present returns the found row's key
and leaves the store untouched. -/
theorem save_event_found (s : Store) (e : Event) (row : EventRow)
    (h : lookup_by_url s e.source_url = some row) :
    save_event s e = (row.id, s) := by
  unfold save_event
  rw [h]

/-- C5: submitting the same `source_url` twice (with any other saves in
between) returns the same key both times, and the second submission does not
change the store — no second row is created. -/
theorem save_event_idempotent_dedup (s : Store) (e1 : Event) (mid : List Event) (e2 : Event)
    (h : e2.source_url = e1.source_url) :
    (save_event (save_events (save_event s e1).2 mid).2 e2).1 = (save_event s e1).1 ∧
      (save_event (save_events (save_event s e1).2 mid).2 e2).2 =
        (save_events (save_event s e1).2 mid).2 := by
  obtain ⟨row, hlook, hid⟩ := save_event_lookup_self s e1
  have hlook2 : lookup_by_url (save_events (save_event s e1).2 mid).2 e2.source_url = some row := by
    rw [h]
    exact save_events_preserves_lookup mid _ _ _ hlook
  constructor
  · rw [save_event_found _ _ _ hlook2]
    exact hid
  · rw [save_event_found _ _ _ hlook2]

/-- The empty store. -/
def empty_store : Store :=
  { rows := [], next_id := 0 }

/-- Witness for C5: saving the demo event twice into an empty store. -/
theorem save_event_idempotent_dedup_witness :
    (save_event (save_events (save_event empty_store demo_plain_event).2 []).2
        demo_plain_event).1 = (save_event empty_store demo_plain_event).1 ∧
      (save_event (save_events (save_event empty_store demo_plain_event).2 []).2
          demo_plain_event).2 =
        (save_events (save_event empty_store demo_plain_event).2 []).2 :=
  save_event_idempotent_dedup empty_store demo_plain_event [] demo_plain_event rfl

/-- C6 counterexample: with Telegram configured but failing and Email not
configured, `send_weekly_digest` returns `true` although no configured
channel succeeded — refuting "true iff at least one configured channel
succeeded" as stated. -/
theorem send_weekly_digest_claim_counterexample :
    ¬ (send_weekly_digest [] true false (fun _ => false) (fun _ => false) = true ↔
       some_configured_channel_succeeded [] true false (fun _ => false) (fun _ => false) = true) := by
  intro hiff
  have h1 : send_weekly_digest [] true false (fun _ => false) (fun _ => false) = true := rfl
  have h2 := hiff.mp h1
  simp [some_configured_channel_succeeded] at h2

/-- C6 amended: `send_weekly_digest` returns `true` iff each channel's
success flag survives — that is, iff at least one channel is either
unconfigured (its flag keeps its `True` default) or configured and
succeeding; equivalently it returns `false` only when both channels are
configured and both sends fail, so with no channel configured it returns
`true`. -/
theorem send_weekly_digest_success_iff (ranked_events : List RankedEvent)
    (tc ec : Bool) (st se : List DigestEvent → Bool) :
    send_weekly_digest ranked_events tc ec st se = true ↔
      ((tc = false ∨ st (digest_events_of ranked_events) = true) ∨
       (ec = false ∨ se (digest_events_of ranked_events) = true)) := by
  unfold send_weekly_digest
  cases tc <;> cases ec <;> simp

/-- C7: a (connpass, city) pair whose HTTP query fails still yields the
non-empty deterministic mock fallback for that city, and every pair's result
list — the failing one included — is a sublist of the aggregated discovery
output, so no pair's failure suppresses the others. -/
theorem discover_events_fallback (now : Nat)
    (resp : String → Option (List RawConnpassEvent)) (city : String)
    (hf : resp city = none) :
    search_platform now resp .connpass city = get_connpass_mock_events now city ∧
      get_connpass_mock_events now city ≠ [] ∧
      ∀ (p : EventPlatform) (c : String), (c, p) ∈ finder_pairs →
        (search_platform now resp p c).Sublist (discover_events now resp) := by
  refine ⟨?_, ?_, ?_⟩
  · show search_connpass now resp city = get_connpass_mock_events now city
    unfold search_connpass
    rw [hf]
  · simp [get_connpass_mock_events]
  · intro p c hm
    unfold discover_events
    exact List.sublist_flatten_of_mem (List.mem_map_of_mem _ hm)

/-- Witness for C7 with every query failing, at the (connpass, Osaka) and
(peatix, Kyoto) pairs. -/
theorem discover_events_fallback_witness :
    search_platform 0 (fun _ => none) .connpass "Osaka" = get_connpass_mock_events 0 "Osaka" ∧
      get_connpass_mock_events 0 "Osaka" ≠ [] ∧
      (search_platform 0 (fun _ => none) .peatix "Kyoto").Sublist
        (discover_events 0 (fun _ => none)) := by
  have T := discover_events_fallback 0 (fun _ => none) "Osaka" rfl
  exact ⟨T.1, T.2.1, T.2.2 .peatix "Kyoto" (by decide)⟩

/-- C10: a ranked event shown in the digest is labeled "✅ Auto-registered"
exactly when its relevance score is at least `0.8`; the label is computed
from the score alone (`send_weekly_digest` receives no registration
outcomes), so events skipped by the cap or the price check still get the
label whenever their score clears `0.8`. -/
theorem digest_label_iff_score (ranked_events : List RankedEvent) (re : RankedEvent)
    (h : re ∈ ranked_events.take 10) :
    toDigestEvent re ∈ digest_events_of ranked_events ∧
      ((toDigestEvent re).registration_status = "✅ Auto-registered" ↔
        (8/10 : ℚ) ≤ re.relevance_score) := by
  refine ⟨List.mem_map_of_mem _ h, ?_⟩
  show (if re.relevance_score ≥ 8/10 then "✅ Auto-registered" else "⏸️ Manual review")
      = "✅ Auto-registered" ↔ (8/10 : ℚ) ≤ re.relevance_score
  by_cases hc : (8/10 : ℚ) ≤ re.relevance_score
  · rw [if_pos hc]
    simp [hc]
  · rw [if_neg hc]
    constructor
    · intro hstr
      exact absurd hstr (by decide)
    · intro hle
      exact absurd hle hc

/-- Witness for C10 at the demo event scored `0.9`. -/
theorem digest_label_iff_score_witness :
    toDigestEvent demo_ranked_090 ∈ digest_events_of [demo_ranked_090] ∧
      ((toDigestEvent demo_ranked_090).registration_status = "✅ Auto-registered" ↔
        (8/10 : ℚ) ≤ demo_ranked_090.relevance_score) :=
  digest_label_iff_score [demo_ranked_090] demo_ranked_090
    (show demo_ranked_090 ∈ [demo_ranked_090].take 10 from List.mem_singleton.mpr rfl)

end AgentAutomation
